import Mathlib

/-!
Verification development for the 1CClientBankExchange marshalling engine
(`client_bank_exchange_1c.py`). The Python source is shallowly embedded:
strings are lists of characters, Python `None`-able attribute values become
the `Val` type, raised exceptions become `Except Err`, and the CPython
`Decimal` class is modelled by its sign / coefficient / scale triple.
Schema dictionaries are embedded as lists in declaration order (CPython
dict iteration order over a class `__dict__` is unspecified; declaration
order is the canonical choice). Nondeterministic inputs of
`Statement.from_documents` (`date.today()`, `datetime.now()`) are passed
as explicit parameters.
-/

namespace CBE

/-- Python unicode strings are embedded as lists of characters. -/
abbrev Str := List Char

/-- Split a character list at every occurrence of the separator character,
keeping empty pieces, like Python `text.split(c)` / `re.MULTILINE` lines. -/
def splitChar (c : Char) : Str → List Str
  | [] => [[]]
  | a :: rest =>
    match splitChar c rest with
    | [] => [[a]]
    | h :: t => if a = c then [] :: h :: t else (a :: h) :: t

/-- The lines of a region, in the sense of the `re.MULTILINE` anchors of
`Field.get_value_from_text`: pieces between newline characters. -/
def linesOf (s : Str) : List Str := splitChar '\n' s

/-- Join pieces with a separator, like Python `sep.join(pieces)`. -/
def joinWith (sep : Str) : List Str → Str
  | [] => []
  | [x] => x
  | x :: y :: t => x ++ sep ++ joinWith sep (y :: t)

/-- Python `unicode.strip()`: drop leading and trailing whitespace. -/
def strip (s : Str) : Str :=
  List.reverse (List.dropWhile Char.isWhitespace
    (List.reverse (List.dropWhile Char.isWhitespace s)))

/-- Index of the first occurrence of `pat` as a contiguous substring,
like `regex` scanning for a literal pattern. -/
def findSub (pat : Str) : Str → Option Nat
  | [] => if pat = [] then some 0 else none
  | c :: cs =>
    if List.isPrefixOf pat (c :: cs) then some 0
    else (findSub pat cs).map (· + 1)

/-- The apostrophe character, U+0027. -/
def apo : Char := Char.ofNat 39

/-- `datetime.date`: year, month, day. -/
structure DateV where
  year : Nat
  month : Nat
  day : Nat
deriving DecidableEq, Repr

/-- `datetime.time`: hour, minute, second. -/
structure TimeV where
  hour : Nat
  minute : Nat
  second : Nat
deriving DecidableEq, Repr

/-- CPython `decimal.Decimal` as produced by parsing a plain numeric
literal: sign, coefficient (leading zeros are not stored), and scale
(number of digits after the decimal point; the stored exponent is its
negation). -/
structure Dec where
  neg : Bool
  coeff : Nat
  scale : Nat
deriving DecidableEq, Repr

/-- Numeric value of an embedded `Decimal`. -/
def Dec.toRat (d : Dec) : ℚ :=
  (if d.neg then -1 else 1) * (d.coeff : ℚ) / ((10 : ℚ) ^ d.scale)

/-- Decimal digit characters of a natural number, like Python `str(n)`. -/
def natDigits (n : Nat) : Str := Nat.toDigits 10 n

/-- Pad a digit string on the left with zeros up to width `w`
(`strftime` style zero padding). -/
def padZero (w : Nat) (s : Str) : Str := List.replicate (w - s.length) '0' ++ s

/-- `str(Decimal)` for the decimals this program produces (exponent is
never positive): digits with the decimal point inserted `scale` digits
from the right, a zero prepended when the integer part is empty. -/
def Dec.render (d : Dec) : Str :=
  let ds := natDigits d.coeff
  let padded := if ds.length < d.scale + 1
    then List.replicate (d.scale + 1 - ds.length) '0' ++ ds
    else ds
  let body := if d.scale = 0 then padded
    else padded.take (padded.length - d.scale) ++ ('.' :: [])
      ++ padded.drop (padded.length - d.scale)
  if d.neg then '-' :: body else body

/-- Errors raised by the embedded code. `structural` is the ValueError of
`Field.get_value_from_text` on duplicated non-array fields; `format` is
the ValueError of `strptime`; `invalidOperation` the `decimal` parse
failure; `typeError` the TypeError of `re.findall` applied to a
non-string (the `None` or list returned by `extract_section_text`);
`attributeError` the AttributeError of `d.payer.bank_bic` on a document
without payer; `validation` the ValueError of `validate_attr` (carrying
the offending field key); `multiBank` the ValueError of
`Statement.from_documents`. -/
inductive Err where
  | structural (key : Str)
  | format
  | invalidOperation
  | typeError
  | attributeError
  | validation (key : Str)
  | multiBank
deriving DecidableEq, Repr

/-- A decoded attribute value: Python `None`, a unicode string, a date, a
time, a `Decimal`, or (for array fields with several occurrences) the
list of per-line `str_to_text` results. -/
inductive Val where
  | none
  | text (s : Str)
  | date (d : DateV)
  | time (t : TimeV)
  | amount (a : Dec)
  | arr (xs : List (Option Str))
deriving DecidableEq, Repr

/-- Lift the `Option` result of a text cast into `Val`. -/
def optText : Option Str → Val
  | Option.none => Val.none
  | Option.some s => Val.text s

/-- Lift an optional date into `Val`. -/
def optDateV : Option DateV → Val
  | Option.none => Val.none
  | Option.some d => Val.date d

/-- Lift an optional time into `Val`. -/
def optTimeV : Option TimeV → Val
  | Option.none => Val.none
  | Option.some t => Val.time t

/-- Python truthiness of the values that can appear as attributes:
`None`, empty strings, empty lists, `time(0,0,0)` and `Decimal(0)` are
falsy (CPython 2 semantics). -/
def pyTruthy : Val → Bool
  | Val.none => false
  | Val.text s => !s.isEmpty
  | Val.date _ => true
  | Val.time t => t ≠ ⟨0, 0, 0⟩
  | Val.amount a => a.coeff ≠ 0
  | Val.arr xs => !xs.isEmpty

/-- `u"%d.%m.%Y"` rendering of a date (`strftime`). -/
def dateFmt (d : DateV) : Str :=
  padZero 2 (natDigits d.day) ++ ('.' :: []) ++ padZero 2 (natDigits d.month)
    ++ ('.' :: []) ++ padZero 4 (natDigits d.year)

/-- `u"%H:%M:%S"` rendering of a time (`strftime`). -/
def timeFmt (t : TimeV) : Str :=
  padZero 2 (natDigits t.hour) ++ (':' :: []) ++ padZero 2 (natDigits t.minute)
    ++ (':' :: []) ++ padZero 2 (natDigits t.second)

/-- `repr` of a list element as `unicode(list)` shows it. -/
def pyReprElem : Option Str → Str
  | Option.none => "None".data
  | Option.some s => 'u' :: apo :: s ++ [apo]

/-- `unicode` of a Python list of optional strings (escaping inside the
elements is not modelled; only shape and non-emptiness matter). -/
def pyReprList (xs : List (Option Str)) : Str :=
  '[' :: joinWith ", ".data (xs.map pyReprElem) ++ [']']

/-- `unicode(obj)` for the attribute values that can reach a text cast. -/
def pyStr : Val → Str
  | Val.none => "None".data
  | Val.text s => s
  | Val.date d =>
      padZero 4 (natDigits d.year) ++ ('-' :: []) ++ padZero 2 (natDigits d.month)
        ++ ('-' :: []) ++ padZero 2 (natDigits d.day)
  | Val.time t => timeFmt t
  | Val.amount a => Dec.render a
  | Val.arr xs => pyReprList xs

/-- All characters are decimal digits. -/
def allDigits (s : Str) : Bool := s.all Char.isDigit

/-- Numeric value of a digit string. -/
def natOfDigits (s : Str) : Nat := s.foldl (fun a c => a * 10 + (c.toNat - 48)) 0

/-- Gregorian leap year test, as `datetime.date` validates days. -/
def isLeap (y : Nat) : Bool := y % 4 = 0 && (y % 100 ≠ 0 || y % 400 = 0)

/-- Days in a month, as `datetime.date` validates. -/
def daysInMonth (y m : Nat) : Nat :=
  if m = 2 then (if isLeap y then 29 else 28)
  else if m = 4 ∨ m = 6 ∨ m = 9 ∨ m = 11 then 30
  else 31

/-- `datetime.strptime(s, "%d.%m.%Y").date()`: three dot-separated digit
groups (day and month one or two digits, year up to four), validated as a
real calendar date. Returns `none` on failure (a raised ValueError). -/
def parseDate (s : Str) : Option DateV :=
  match splitChar '.' s with
  | [ds, ms, ys] =>
    if allDigits ds && allDigits ms && allDigits ys
        && decide (1 ≤ ds.length) && decide (ds.length ≤ 2)
        && decide (1 ≤ ms.length) && decide (ms.length ≤ 2)
        && decide (1 ≤ ys.length) && decide (ys.length ≤ 4) then
      let d := natOfDigits ds
      let m := natOfDigits ms
      let y := natOfDigits ys
      if 1 ≤ m ∧ m ≤ 12 ∧ 1 ≤ d ∧ d ≤ daysInMonth y m ∧ 1 ≤ y then
        some ⟨y, m, d⟩
      else Option.none
    else Option.none
  | _ => Option.none

/-- `datetime.strptime(s, "%H:%M:%S").time()`: three colon-separated digit
groups with the usual field ranges. -/
def parseTime (s : Str) : Option TimeV :=
  match splitChar ':' s with
  | [hs, ms, ss] =>
    if allDigits hs && allDigits ms && allDigits ss
        && decide (1 ≤ hs.length) && decide (hs.length ≤ 2)
        && decide (1 ≤ ms.length) && decide (ms.length ≤ 2)
        && decide (1 ≤ ss.length) && decide (ss.length ≤ 2) then
      let h := natOfDigits hs
      let m := natOfDigits ms
      let sec := natOfDigits ss
      if h ≤ 23 ∧ m ≤ 59 ∧ sec ≤ 59 then some ⟨h, m, sec⟩ else Option.none
    else Option.none
  | _ => Option.none

/-- `Decimal(s)` on a string made of digits, periods and minus signs: an
optional leading sign, then digits with at most one decimal point and at
least one digit. Anything else raises InvalidOperation. -/
def decimalParse (s : Str) : Except Err Dec :=
  let (sgn, body) := match s with
    | '-' :: rest => (true, rest)
    | _ => (false, s)
  match splitChar '.' body with
  | [ip] =>
    if ip ≠ [] ∧ allDigits ip then Except.ok ⟨sgn, natOfDigits ip, 0⟩
    else Except.error Err.invalidOperation
  | [ip, fp] =>
    if (ip ++ fp) ≠ [] ∧ allDigits (ip ++ fp) then
      Except.ok ⟨sgn, natOfDigits (ip ++ fp), fp.length⟩
    else Except.error Err.invalidOperation
  | _ => Except.error Err.invalidOperation

/-- Python `text.replace(c, "", n)` for a single character, with the
CPython rule that a negative count replaces every occurrence and a
non-negative count removes only the first `n` occurrences. -/
def pyDropOcc (c : Char) : Nat → Str → Str
  | _, [] => []
  | 0, s => s
  | Nat.succ m, a :: rest =>
    if a = c then pyDropOcc c m rest else a :: pyDropOcc c (Nat.succ m) rest

namespace Cast

/-- `Cast.str_to_text`: strip; empty or whitespace-only becomes `None`. -/
def str_to_text (obj : Str) : Option Str :=
  if (strip obj).isEmpty then Option.none else Option.some (strip obj)

/-- `Cast.str_to_date`: empty input is `None`, otherwise a strict
`%d.%m.%Y` parse whose failure raises ValueError. -/
def str_to_date (obj : Str) : Except Err (Option DateV) :=
  if obj.isEmpty then Except.ok Option.none
  else match parseDate obj with
    | Option.some d => Except.ok (Option.some d)
    | Option.none => Except.error Err.format

/-- `Cast.str_to_time`: empty input is `None`, otherwise a strict
`%H:%M:%S` parse whose failure raises ValueError. -/
def str_to_time (obj : Str) : Except Err (Option TimeV) :=
  if obj.isEmpty then Except.ok Option.none
  else match parseTime obj with
    | Option.some t => Except.ok (Option.some t)
    | Option.none => Except.error Err.format

/-- `Cast.str_to_amount`, step by step as the source chains it:
`re.sub` keeps only digits, commas, periods and minus signs; the
apostrophe and space replacements (no-ops after the sub); commas become
periods; then `.replace(".", "", obj.count(".") - 1)` where the count is
taken over the ORIGINAL string, so a string without periods gives count
`-1`, which in CPython removes every period; finally `Decimal(...)`. -/
def str_to_amount (obj : Str) : Except Err Dec :=
  let filtered := obj.filter (fun c => c.isDigit || c = ',' || c = '.' || c = '-')
  let s1 := filtered.filter (fun c => c ≠ apo)
  let s2 := s1.filter (fun c => c ≠ ' ')
  let s3 := s2.map (fun c => if c = ',' then '.' else c)
  let dots := obj.countP (fun c => c = '.')
  let s4 := if dots = 0 then s3.filter (fun c => c ≠ '.')
    else pyDropOcc '.' (dots - 1) s3
  decimalParse s4

/-- `Cast.text_to_str`: falsy values render as the empty string, truthy
ones as `unicode(obj).strip()`. -/
def text_to_str (v : Val) : Str :=
  if pyTruthy v then strip (pyStr v) else []

/-- `Cast.date_to_str`: `%d.%m.%Y`, or empty for `None` (non-date truthy
values cannot reach this cast in the pipeline and render empty). -/
def date_to_str : Val → Str
  | Val.date d => dateFmt d
  | _ => []

/-- `Cast.time_to_str`: `%H:%M:%S`, or empty for `None`. -/
def time_to_str : Val → Str
  | Val.time t => timeFmt t
  | _ => []

/-- `Cast.amount_to_str`: `unicode(obj).replace(",", ".")` — note that a
`None` attribute renders as the four characters `None`. -/
def amount_to_str (v : Val) : Str :=
  (pyStr v).map (fun c => if c = ',' then '.' else c)

end Cast

/-- The `Required` flag bitset: NONE, TO_BANK, FROM_BANK, BOTH. -/
inductive Req where
  | none
  | toBank
  | fromBank
  | both
deriving DecidableEq, Repr

/-- `Required.TO_BANK in field.required` (aenum Flag membership). -/
def hasToBank : Req → Bool
  | Req.toBank => true
  | Req.both => true
  | _ => false

/-- The `Type` enum of field value kinds. -/
inductive Ty where
  | text
  | date
  | time
  | amount
  | array
  | flag
deriving DecidableEq, Repr

/-- A `Field` descriptor: key, description, direction flags, value kind. -/
structure FieldD where
  key : Str
  descr : Str
  required : Req
  ty : Ty
deriving DecidableEq, Repr

/-- Shorthand for building a schema entry from string literals. -/
def fld (k d : String) (r : Req) (t : Ty) : FieldD := ⟨k.data, d.data, r, t⟩

/-- Whether a line matches `^KEY=(.*?)$` for this key (a literal key
followed by an equals sign at the start of the line). -/
def isKeyLine (key : Str) (l : Str) : Bool := List.isPrefixOf (key ++ ('=' :: [])) l

/-- `re.findall(ur"^KEY=(.*?)$", region, re.MULTILINE)`: the captured
remainders of every line starting with `KEY=`. -/
def findallKV (key : Str) (region : Str) : List Str :=
  (linesOf region).filterMap
    (fun l => if isKeyLine key l then some (l.drop (key.length + 1)) else none)

/-- `cast_from_text` dispatch of the `Type` enum (single occurrence). -/
def castFromText : Ty → Str → Except Err Val
  | Ty.text, s => Except.ok (optText (Cast.str_to_text s))
  | Ty.date, s => Except.map optDateV (Cast.str_to_date s)
  | Ty.time, s => Except.map optTimeV (Cast.str_to_time s)
  | Ty.amount, s => Except.map Val.amount (Cast.str_to_amount s)
  | Ty.array, s => Except.ok (optText (Cast.str_to_text s))
  | Ty.flag, s => Except.ok (optText (Cast.str_to_text s))

/-- `Field.get_value_from_text`: collect every `KEY=`-line of the region;
two or more matches of a non-array field raise ValueError; no match is
`None`; several matches of an array field decode element-wise; otherwise
the first (only) capture is cast. -/
def get_value_from_text (f : FieldD) (source_text : Str) : Except Err Val :=
  if 1 < (findallKV f.key source_text).length ∧ f.ty ≠ Ty.array then
    Except.error (Err.structural f.key)
  else
    match findallKV f.key source_text with
    | [] => Except.ok Val.none
    | x :: rest =>
      if f.ty = Ty.array ∧ 1 < (x :: rest).length then
        Except.ok (Val.arr ((x :: rest).map Cast.str_to_text))
      else castFromText f.ty x

/-- `cast_to_text` dispatch of the `Type` enum. -/
def castToText : Ty → Val → Str
  | Ty.date, v => Cast.date_to_str v
  | Ty.time, v => Cast.time_to_str v
  | Ty.amount, v => Cast.amount_to_str v
  | _, v => Cast.text_to_str v

/-- `Section.to_text.get_line`: optional empty fields render nothing;
flag fields render the bare key; everything else renders `KEY=value`. -/
def get_line (f : FieldD) (attr : Val) : Str :=
  if ¬ hasToBank f.required ∧ castToText f.ty attr = [] then []
  else if f.ty = Ty.flag then f.key
  else f.key ++ ('=' :: []) ++ castToText f.ty attr

/-- The items Python iterates over in `for item in attr` when an array
field holds a truthy attribute: list elements, or the characters of a
string (the scalar an array field decodes to from a single line). -/
def pyElems : Val → List Val
  | Val.arr xs => xs.map optText
  | Val.text s => s.map (fun c => Val.text [c])
  | _ => []

/-- `Section.to_text.get_text`: truthy array attributes render one
`get_line` per iterated item, joined by newlines; everything else goes
through `get_line` directly. -/
def get_text (f : FieldD) (attr : Val) : Str :=
  if pyTruthy attr ∧ f.ty = Ty.array then
    joinWith ('\n' :: []) ((pyElems attr).map (get_line f))
  else get_line f attr

/-- `Section.to_text.validate_attr`: a non-flag field required TO_BANK
whose rendered value is empty raises ValueError naming the key. -/
def validate_attr (f : FieldD) (attr : Val) : Except Err Unit :=
  if hasToBank f.required ∧ f.ty ≠ Ty.flag ∧ castToText f.ty attr = [] then
    Except.error (Err.validation f.key)
  else Except.ok ()

/-- `mapM` for `Except Err`, written structurally so that proofs can
follow the recursion. -/
def mapE {α β : Type} (f : α → Except Err β) : List α → Except Err (List β)
  | [] => Except.ok []
  | a :: l =>
    match f a with
    | Except.error e => Except.error e
    | Except.ok b =>
      match mapE f l with
      | Except.error e => Except.error e
      | Except.ok bs => Except.ok (b :: bs)

/-- The body of the `Section.to_text` field loop: validate (when asked),
then render, field by field in schema order, stopping at the first
validation error. -/
def sectionLoop (validate : Bool) : List (FieldD × Val) → Except Err (List Str)
  | [] => Except.ok []
  | (f, attr) :: rest =>
    match (if validate then validate_attr f attr else Except.ok ()) with
    | Except.error e => Except.error e
    | Except.ok _ =>
      match sectionLoop validate rest with
      | Except.error e => Except.error e
      | Except.ok ts => Except.ok (get_text f attr :: ts)

/-- `Section.from_text` over one schema: a `None` region (a missing or
repeated enclosing section) makes `re.findall` raise TypeError; otherwise
every field is extracted from the region, in schema order. The record is
the list of attribute values in schema order. -/
def section_from_text (schema : List FieldD) (region : Option Str) : Except Err (List Val) :=
  match region with
  | Option.none => Except.error Err.typeError
  | Option.some r => mapE (fun f => get_value_from_text f r) schema

/-- `Section.to_text`: render every field, drop empty lines, join with
newlines. -/
def section_to_text (schema : List FieldD) (validate : Bool) (vals : List Val) :
    Except Err Str :=
  Except.map (fun ts => joinWith ('\n' :: []) (ts.filter (fun x => x ≠ [])))
    (sectionLoop validate (schema.zip vals))

/-- `Header.Schema`, in declaration order. -/
def headerSchema : List FieldD := [
  fld "1CClientBankExchange" "Внутренний признак файла обмена" Req.both Ty.flag,
  fld "ВерсияФормата" "Номер версии формата обмена" Req.both Ty.text,
  fld "Кодировка" "Кодировка файла" Req.both Ty.text,
  fld "Отправитель" "Программа-отправитель" Req.toBank Ty.text,
  fld "Получатель" "Программа-получатель" Req.fromBank Ty.text,
  fld "ДатаСоздания" "Дата формирования файла" Req.none Ty.date,
  fld "ВремяСоздания" "Время формирования файла" Req.none Ty.time,
  fld "ДатаНачала" "Дата начала интервала" Req.both Ty.date,
  fld "ДатаКонца" "Дата конца интервала" Req.both Ty.date,
  fld "РасчСчет" "Расчетный счет организации" Req.both Ty.array,
  fld "Документ" "Вид документа" Req.none Ty.array]

/-- `Balance.Schema`, in declaration order. -/
def balanceSchema : List FieldD := [
  fld "СекцияРасчСчет" "Признак начала секции" Req.none Ty.flag,
  fld "ДатаНачала" "Дата начала интервала" Req.fromBank Ty.date,
  fld "ДатаКонца" "Дата конца интервала" Req.none Ty.date,
  fld "РасчСчет" "Расчетный счет организации" Req.fromBank Ty.text,
  fld "НачальныйОстаток" "Начальный остаток" Req.fromBank Ty.amount,
  fld "ВсегоПоступило" "Обороты входящих платежей" Req.none Ty.amount,
  fld "ВсегоСписано" "Обороты исходящих платежей" Req.none Ty.amount,
  fld "КонечныйОстаток" "Конечный остаток" Req.none Ty.amount,
  fld "КонецРасчСчет" "Признак окончания секции" Req.none Ty.flag]

/-- `Receipt.Schema`. -/
def receiptSchema : List FieldD := [
  fld "КвитанцияДата" "Дата формирования квитанции" Req.none Ty.date,
  fld "КвитанцияВремя" "Время формирования квитанции" Req.none Ty.time,
  fld "КвитанцияСодержание" "Содержание квитанции" Req.none Ty.text]

/-- `Payer.Schema`, in declaration order (`bank_bic` is entry 11,
`account_number` entry 8). -/
def payerSchema : List FieldD := [
  fld "ПлательщикСчет" "Расчетный счет плательщика" Req.both Ty.text,
  fld "ДатаСписано" "Дата списания средств" Req.fromBank Ty.date,
  fld "Плательщик" "Плательщик" Req.toBank Ty.text,
  fld "ПлательщикИНН" "ИНН плательщика" Req.both Ty.text,
  fld "Плательщик1" "Наименование плательщика 1" Req.toBank Ty.text,
  fld "Плательщик2" "Наименование плательщика 2" Req.none Ty.text,
  fld "Плательщик3" "Наименование плательщика 3" Req.none Ty.text,
  fld "Плательщик4" "Наименование плательщика 4" Req.none Ty.text,
  fld "ПлательщикРасчСчет" "Расчетный счет плательщика" Req.toBank Ty.text,
  fld "ПлательщикБанк1" "Банк плательщика" Req.toBank Ty.text,
  fld "ПлательщикБанк2" "Город банка плательщика" Req.toBank Ty.text,
  fld "ПлательщикБИК" "БИК банка плательщика" Req.toBank Ty.text,
  fld "ПлательщикКорсчет" "Корсчет банка плательщика" Req.toBank Ty.text]

/-- `Receiver.Schema`, in declaration order (`date_received` is a plain
text field in the source: no type argument is given). -/
def receiverSchema : List FieldD := [
  fld "ПолучательСчет" "Расчетный счет получателя" Req.both Ty.text,
  fld "ДатаПоступило" "Дата поступления средств" Req.fromBank Ty.text,
  fld "Получатель" "Получатель" Req.toBank Ty.text,
  fld "ПолучательИНН" "ИНН получателя" Req.both Ty.text,
  fld "Получатель1" "Наименование получателя" Req.toBank Ty.text,
  fld "Получатель2" "Наименование получателя 2" Req.none Ty.text,
  fld "Получатель3" "Наименование получателя 3" Req.none Ty.text,
  fld "Получатель4" "Наименование получателя 4" Req.none Ty.text,
  fld "ПолучательРасчСчет" "Расчетный счет получателя" Req.toBank Ty.text,
  fld "ПолучательБанк1" "Банк получателя" Req.toBank Ty.text,
  fld "ПолучательБанк2" "Город банка получателя" Req.toBank Ty.text,
  fld "ПолучательБИК" "БИК банка получателя" Req.toBank Ty.text,
  fld "ПолучательКорсчет" "Корсчет банка получателя" Req.toBank Ty.text]

/-- `Payment.Schema`. -/
def paymentSchema : List FieldD := [
  fld "ВидПлатежа" "Вид платежа" Req.none Ty.text,
  fld "ВидОплаты" "Вид оплаты" Req.toBank Ty.text,
  fld "Код" "Уникальный идентификатор платежа" Req.none Ty.text,
  fld "НазначениеПлатежа" "Назначение платежа" Req.none Ty.text,
  fld "НазначениеПлатежа1" "Назначение платежа 1" Req.none Ty.text,
  fld "НазначениеПлатежа2" "Назначение платежа 2" Req.none Ty.text,
  fld "НазначениеПлатежа3" "Назначение платежа 3" Req.none Ty.text,
  fld "НазначениеПлатежа4" "Назначение платежа 4" Req.none Ty.text,
  fld "НазначениеПлатежа5" "Назначение платежа 5" Req.none Ty.text,
  fld "НазначениеПлатежа6" "Назначение платежа 6" Req.none Ty.text]

/-- `Tax.Schema`. -/
def taxSchema : List FieldD := [
  fld "СтатусСоставителя" "Статус составителя" Req.both Ty.text,
  fld "ПлательщикКПП" "КПП плательщика" Req.both Ty.text,
  fld "ПолучательКПП" "КПП получателя" Req.both Ty.text,
  fld "ПоказательКБК" "Показатель КБК" Req.both Ty.text,
  fld "ОКАТО" "Код ОКТМО территории" Req.both Ty.text,
  fld "ПоказательОснования" "Показатель основания" Req.both Ty.text,
  fld "ПоказательПериода" "Показатель периода" Req.both Ty.text,
  fld "ПоказательНомера" "Показатель номера" Req.both Ty.text,
  fld "ПоказательДаты" "Показатель даты" Req.both Ty.text,
  fld "ПоказательТипа" "Показатель типа платежа" Req.none Ty.text]

/-- `Special.Schema`. -/
def specialSchema : List FieldD := [
  fld "Очередность" "Очередность платежа" Req.none Ty.text,
  fld "СрокАкцепта" "Срок акцепта" Req.none Ty.text,
  fld "ВидАккредитива" "Вид аккредитива" Req.none Ty.text,
  fld "СрокПлатежа" "Срок платежа" Req.none Ty.text,
  fld "УсловиеОплаты1" "Условие оплаты 1" Req.none Ty.text,
  fld "УсловиеОплаты2" "Условие оплаты 2" Req.none Ty.text,
  fld "УсловиеОплаты3" "Условие оплаты 3" Req.none Ty.text,
  fld "ПлатежПоПредст" "Платеж по представлению" Req.none Ty.text,
  fld "ДополнУсловия" "Дополнительные условия" Req.none Ty.text,
  fld "НомерСчетаПоставщика" "Номер счета поставщика" Req.none Ty.text,
  fld "ДатаОтсылкиДок" "Дата отсылки документов" Req.none Ty.text]

/-- `Document.Schema` (the document header fields). -/
def documentSchema : List FieldD := [
  fld "СекцияДокумент" "Признак начала секции" Req.none Ty.text,
  fld "Номер" "Номер документа" Req.both Ty.text,
  fld "Дата" "Дата документа" Req.both Ty.date,
  fld "Сумма" "Сумма платежа" Req.both Ty.amount]

/-- The `ur"^(.*?)Секция"` (`re.S`) header locator: the prefix of the
whole text up to the first occurrence of `Секция`, or `None` when that
marker never occurs. -/
def header_extract (t : Str) : Option Str :=
  (findSub "Секция".data t).map (fun i => t.take i)

/-- `regex.findall` for a `BEGIN(.*?)END` (`re.S`) pattern: the lazily
captured spans between each begin marker and the next end marker,
scanning left to right and resuming after each end marker; when
`inclBegin` is set the capture group also covers the begin marker, as in
the `Document` pattern `(СекцияДокумент.*?)КонецДокумента`. -/
def scanRegions (b e : Str) (inclBegin : Bool) : Nat → Str → List Str
  | 0, _ => []
  | Nat.succ fuel, t =>
    match findSub b t with
    | Option.none => []
    | Option.some i =>
      let afterB := t.drop (i + b.length)
      match findSub e afterB with
      | Option.none => []
      | Option.some j =>
        let cap := if inclBegin then (t.drop i).take (b.length + j) else afterB.take j
        cap :: scanRegions b e inclBegin fuel (afterB.drop (j + e.length))

/-- `Balance.Meta.regex.findall`: spans strictly between
`СекцияРасчСчет` and `КонецРасчСчет`. -/
def balance_extract (t : Str) : List Str :=
  scanRegions "СекцияРасчСчет".data "КонецРасчСчет".data false t.length t

/-- `Document.Meta.regex.findall`: spans from each `СекцияДокумент` to
the next `КонецДокумента`, the begin marker included in the capture. -/
def document_regions (t : Str) : List Str :=
  scanRegions "СекцияДокумент".data "КонецДокумента".data true t.length t

/-- `Header.from_text`: extract the header region and decode it (an
absent region is `None` and the field regexes then raise TypeError). -/
def header_from_text (t : Str) : Except Err (List Val) :=
  section_from_text headerSchema (header_extract t)

/-- `Balance.from_text`: `extract_section_text` yields `None` for zero
matches and a list for several; both make `re.findall` inside the field
loop raise TypeError. A single span decodes normally. -/
def balance_from_text (t : Str) : Except Err (List Val) :=
  match balance_extract t with
  | [r] => section_from_text balanceSchema (Option.some r)
  | _ => section_from_text balanceSchema Option.none

/-- A decoded `Document`: its own schema attributes plus the six
subsection records, each `Option` because the plain constructor defaults
them to `None`. -/
structure DocRec where
  fields : List Val
  receipt : Option (List Val)
  payer : Option (List Val)
  receiver : Option (List Val)
  payment : Option (List Val)
  tax : Option (List Val)
  special : Option (List Val)
deriving DecidableEq, Repr

/-- One iteration of the `Document.from_text` loop: decode the document
schema over the carved span, then each subsection schema over the same
span, assigning all six subsection attributes. -/
def docOne (r : Str) : Except Err DocRec := do
  let fs ← section_from_text documentSchema (Option.some r)
  let rcpt ← section_from_text receiptSchema (Option.some r)
  let pyr ← section_from_text payerSchema (Option.some r)
  let rcv ← section_from_text receiverSchema (Option.some r)
  let pmt ← section_from_text paymentSchema (Option.some r)
  let tx ← section_from_text taxSchema (Option.some r)
  let spc ← section_from_text specialSchema (Option.some r)
  pure ⟨fs, Option.some rcpt, Option.some pyr, Option.some rcv,
    Option.some pmt, Option.some tx, Option.some spc⟩

/-- `Document.from_text`: zero regions means `extract_section_text`
returned `None`, which is wrapped into `[None]` and then crashes the
field regexes with TypeError; otherwise each span decodes to one
document. -/
def document_from_text (t : Str) : Except Err (List DocRec) :=
  match document_regions t with
  | [] => Except.error Err.typeError
  | rs => mapE docOne rs

/-- A `Statement`: header, balance and document list. `from_text` always
constructs a balance record, so `balance` is only `None` for directly
constructed statements (`from_documents`). The `documents` attribute is
embedded as a plain list (`None` and `[]` behave identically in
`to_text`). -/
structure Stmt where
  header : List Val
  balance : Option (List Val)
  documents : List DocRec
deriving DecidableEq, Repr

/-- `Statement.from_text`: header, then balance, then documents, in the
evaluation order of the constructor call. -/
def statement_from_text (t : Str) : Except Err Stmt := do
  let h ← header_from_text t
  let b ← balance_from_text t
  let ds ← document_from_text t
  pure ⟨h, Option.some b, ds⟩

/-- `Balance.to_text`: the rendered schema content wrapped between the
literal section markers. -/
def balance_to_text (validate : Bool) (vals : List Val) : Except Err Str :=
  Except.map
    (fun c => "СекцияРасчСчет\n".data ++ c ++ "\nКонецРасчСчет".data)
    (section_to_text balanceSchema validate vals)

/-- `Document.to_text`: own fields (with the caller's `validate`), then
every present subsection rendered through `unicode(x)`, hence with
`validate=False`, in the fixed order receipt, payer, receiver, payment,
tax, special, then the literal end marker. -/
def document_to_text (validate : Bool) (d : DocRec) : Except Err Str := do
  let content ← section_to_text documentSchema validate d.fields
  let present := ([(receiptSchema, d.receipt), (payerSchema, d.payer),
    (receiverSchema, d.receiver), (paymentSchema, d.payment),
    (taxSchema, d.tax), (specialSchema, d.special)]).filterMap
    (fun p => p.2.map (fun v => (p.1, v)))
  let subTexts ← mapE (fun p => section_to_text p.1 false p.2) present
  pure (content ++ ('\n' :: [])
    ++ joinWith ('\n' :: []) (subTexts ++ ["КонецДокумента".data]))

/-- `Statement.to_text`: header, optional balance, every document, and
the end-of-file marker, joined by blank lines with falsy blocks
dropped. -/
def statement_to_text (validate : Bool) (s : Stmt) : Except Err Str := do
  let h ← section_to_text headerSchema validate s.header
  let b ← match s.balance with
    | Option.some bv => Except.map Option.some (balance_to_text validate bv)
    | Option.none => pure Option.none
  let ds ← mapE (document_to_text validate) s.documents
  let blocks := [h] ++ (match b with
    | Option.some x => [x]
    | Option.none => []) ++ ds ++ ["КонецФайла".data]
  pure (joinWith "\n\n".data (blocks.filter (fun x => x ≠ [])))

/-- Decode, re-encode without validation, decode again — the composition
whose idempotence the specification asserts. -/
def decode_encode_decode (t : Str) : Except Err Stmt := do
  let s ← statement_from_text t
  let t2 ← statement_to_text false s
  statement_from_text t2

/-- Insertion of list elements into a duplicate-free list, modelling the
cardinality behaviour of a Python `set` built from a list. -/
def distinct {α : Type} [DecidableEq α] : List α → List α
  | [] => []
  | a :: l => if a ∈ distinct l then distinct l else a :: distinct l

/-- `d.payer.bank_bic`: schema position 11 of the payer record. -/
def payer_bank_bic (p : List Val) : Val := p.getD 11 Val.none

/-- `d.payer.account_number`: schema position 8 of the payer record. -/
def payer_account_number (p : List Val) : Val := p.getD 8 Val.none

/-- `doc.date`: schema position 2 of the document record. -/
def doc_date (d : DocRec) : Val := d.fields.getD 2 Val.none

/-- Reading an attribute of `d.payer`: a document whose payer is `None`
raises AttributeError. -/
def payerGet (g : List Val → Val) (d : DocRec) : Except Err Val :=
  match d.payer with
  | Option.some p => Except.ok (g p)
  | Option.none => Except.error Err.attributeError

/-- The payer bank identifier a document contributes to the
`from_documents` set (its payer assumed present). -/
def bicD (d : DocRec) : Val := payer_bank_bic (d.payer.getD [])

/-- Python `<` on the values a document date can hold (`None` compares
below every date in CPython 2; dates compare lexicographically). -/
def valLt : Val → Val → Bool
  | Val.none, Val.none => false
  | Val.none, _ => true
  | _, Val.none => false
  | Val.date a, Val.date b =>
      a.year < b.year || (a.year = b.year &&
        (a.month < b.month || (a.month = b.month && a.day < b.day)))
  | _, _ => false

/-- `min(xs)` for a nonempty list, first minimum kept. -/
def minV : List Val → Val
  | [] => Val.none
  | x :: xs => xs.foldl (fun m y => if valLt y m then y else m) x

/-- `max(xs)` for a nonempty list, first maximum kept. -/
def maxV : List Val → Val
  | [] => Val.none
  | x :: xs => xs.foldl (fun m y => if valLt m y then y else m) x

/-- The string a text-typed attribute stores, for packing the
account-number set into an array value. -/
def valToOptText : Val → Option Str
  | Val.text s => Option.some s
  | _ => Option.none

/-- The `Header(...)` built by `Statement.from_documents`: version 1.02,
Windows encoding, the given sender, the current date and time, the
min/max of the document dates, and the set of payer account numbers. -/
def headerFromDocs (today : DateV) (now : TimeV) (sender : Str)
    (dates : List Val) (accs : List Val) : List Val :=
  [Val.none, Val.text "1.02".data, Val.text "Windows".data, Val.text sender,
   Val.none, Val.date today, Val.time now, minV dates, maxV dates,
   Val.arr ((distinct accs).map valToOptText), Val.none]

/-- `Statement.from_documents`: collect every payer bank identifier,
require the set to have exactly one element (raising ValueError
otherwise), then build a header from the documents and return the
statement with no balance. `today` and `now` stand for `date.today()`
and `datetime.now()`. -/
def statement_from_documents (today : DateV) (now : TimeV) (sender : Str)
    (documents : List DocRec) : Except Err Stmt := do
  let bics ← mapE (payerGet payer_bank_bic) documents
  if (distinct bics).length = 1 then do
    let dates := documents.map doc_date
    let accs ← mapE (payerGet payer_account_number) documents
    Except.ok ⟨headerFromDocs today now sender dates accs, Option.none, documents⟩
  else Except.error Err.multiBank

/-- Number of non-overlapping occurrences of a pattern, scanning left to
right (fuelled by the text length). -/
def countSub (pat : Str) : Nat → Str → Nat
  | 0, _ => 0
  | Nat.succ fuel, t =>
    match findSub pat t with
    | Option.none => 0
    | Option.some i => 1 + countSub pat fuel (t.drop (i + pat.length))

/-- The balance `tag_begin` flag field of the source schema. -/
def balance_tag_begin : FieldD :=
  fld "СекцияРасчСчет" "Признак начала секции" Req.none Ty.flag

/-- The `1'234.56` test string of the specification (apostrophe as a
thousands separator). -/
def amountApoInput : Str := "1".data ++ [apo] ++ "234.56".data

/-- A complete file that decodes successfully: header flag line, an
empty balance section, and one document section. -/
def c2T : Str :=
  "1CClientBankExchange\nСекцияРасчСчет\nКонецРасчСчет\nСекцияДокумент=01\nКонецДокумента".data

/-- One terminated document followed by a second document-begin marker
with no end marker after it. -/
def c7T : Str :=
  "СекцияДокумент=01\nКонецДокумента\nСекцияДокумент=02\nхвост".data

/-- A document-begin marker with no end marker anywhere. -/
def c7T2 : Str := "СекцияДокумент=01\nбезконца".data

/-- A file with a header and one document but no balance marker pair. -/
def c8T : Str := "1CClientBankExchange\nСекцияДокумент=01\nКонецДокумента".data

/-- A minimal single-document text for the subsection-presence witness. -/
def c10T : Str := "СекцияДокумент=01\nКонецДокумента".data

/-- Header attribute values with the `1CClientBankExchange` flag unset
and every other TO_BANK-required field non-empty. -/
def c5HeaderVals : List Val :=
  [Val.none, Val.text "1.02".data, Val.text "Windows".data,
   Val.text "Прога".data, Val.none, Val.none, Val.none,
   Val.date ⟨2019, 1, 1⟩, Val.date ⟨2019, 1, 31⟩,
   Val.arr [Option.some "40702810500000000001".data], Val.none]

/-- A payer record whose `bank_bic` entry (position 11) is set. -/
def payerValsW : List Val :=
  List.replicate 11 Val.none ++ [Val.text "044525225".data, Val.none]

/-- A directly constructed document with a payer subsection, for the
`from_documents` witness. -/
def docW : DocRec :=
  ⟨[Val.none, Val.none, Val.none, Val.none], Option.some [],
   Option.some payerValsW, Option.some [], Option.some [], Option.some [],
   Option.some []⟩

/-- A successful `Except` bind factors through a successful first step. -/
theorem except_bind_ok {α β : Type} {x : Except Err α} {f : α → Except Err β}
    {b : β} (h : x >>= f = Except.ok b) :
    ∃ a, x = Except.ok a ∧ f a = Except.ok b := by
  cases x with
  | error e => exact Except.noConfusion h
  | ok a => exact ⟨a, rfl, h⟩

/-- Counting surviving elements of a guarded `filterMap` equals counting
with `filter`. -/
theorem length_filterMap_guard (p : Str → Bool) (g : Str → Str) :
    ∀ L : List Str,
      (L.filterMap (fun l => if p l then some (g l) else none)).length
        = (L.filter p).length := by
  intro L
  induction L with
  | nil => rfl
  | cons a t ih =>
    by_cases hp : p a <;>
      simp [List.filterMap_cons, List.filter_cons, hp, ih]

/-- The number of matches `findallKV` collects is the number of lines of
the region carrying `key=`. -/
theorem findallKV_length (key region : Str) :
    (findallKV key region).length
      = ((linesOf region).filter (fun l => isKeyLine key l)).length :=
  length_filterMap_guard (isKeyLine key) (fun l => l.drop (key.length + 1)) (linesOf region)

/-- Elements of a successful `mapE` come from successful applications to
list members. -/
theorem mapE_mem_ok {α β : Type} {f : α → Except Err β} :
    ∀ {l : List α} {ys : List β}, mapE f l = Except.ok ys →
      ∀ y ∈ ys, ∃ x ∈ l, f x = Except.ok y := by
  intro l
  induction l with
  | nil =>
    intro ys h y hy
    injection h with h2
    subst h2
    exact absurd hy (List.not_mem_nil y)
  | cons a t ih =>
    intro ys h y hy
    unfold mapE at h
    cases hfa : f a with
    | error e => rw [hfa] at h; exact Except.noConfusion h
    | ok b =>
      rw [hfa] at h
      cases hmt : mapE f t with
      | error e => rw [hmt] at h; exact Except.noConfusion h
      | ok bs =>
        rw [hmt] at h
        injection h with h2
        subst h2
        rcases List.mem_cons.mp hy with rfl | hy2
        · exact ⟨a, List.mem_cons_self a t, hfa⟩
        · obtain ⟨x, hx, hfx⟩ := ih hmt y hy2
          exact ⟨x, List.mem_cons_of_mem a hx, hfx⟩

/-- A validation success lets the section loop step over one field. -/
theorem sectionLoop_ok_step (f : FieldD) (v : Val) (rest : List (FieldD × Val))
    (h : validate_attr f v = Except.ok ()) :
    sectionLoop true ((f, v) :: rest)
      = Except.map (fun ts => get_text f v :: ts) (sectionLoop true rest) := by
  have hi : (if true then validate_attr f v else Except.ok ()) = validate_attr f v :=
    if_pos rfl
  rw [sectionLoop, hi, h]
  cases hrest : sectionLoop true rest <;> simp [Except.map]

/-- A validation failure aborts the section loop with that error. -/
theorem sectionLoop_err_step (f : FieldD) (v : Val) (rest : List (FieldD × Val))
    {e : Err} (h : validate_attr f v = Except.error e) :
    sectionLoop true ((f, v) :: rest) = Except.error e := by
  have hi : (if true then validate_attr f v else Except.ok ()) = validate_attr f v :=
    if_pos rfl
  rw [sectionLoop, hi, h]

/-- Membership in `distinct` is membership in the underlying list. -/
theorem mem_distinct {α : Type} [DecidableEq α] (x : α) :
    ∀ l : List α, x ∈ distinct l ↔ x ∈ l := by
  intro l
  induction l with
  | nil => simp [distinct]
  | cons a t ih =>
    simp only [distinct]
    by_cases h : a ∈ distinct t
    · rw [if_pos h]
      constructor
      · intro hx; exact List.mem_cons_of_mem a (ih.mp hx)
      · intro hx
        rcases List.mem_cons.mp hx with rfl | hx2
        · exact h
        · exact ih.mpr hx2
    · rw [if_neg h]
      simp [ih]

/-- `distinct` is empty exactly on the empty list. -/
theorem distinct_eq_nil {α : Type} [DecidableEq α] :
    ∀ l : List α, distinct l = [] ↔ l = [] := by
  intro l
  induction l with
  | nil => simp [distinct]
  | cons a t ih =>
    simp only [distinct]
    by_cases h : a ∈ distinct t
    · rw [if_pos h]
      constructor
      · intro he; rw [he] at h; exact absurd h (List.not_mem_nil a)
      · intro he; exact (List.cons_ne_nil a t he).elim
    · rw [if_neg h]
      simp

/-- A list has exactly one distinct element precisely when it is nonempty
and all its elements coincide. -/
theorem distinct_length_one {α : Type} [DecidableEq α] :
    ∀ l : List α, (distinct l).length = 1 ↔ (l ≠ [] ∧ ∃ b, ∀ x ∈ l, x = b) := by
  intro l
  induction l with
  | nil => simp [distinct]
  | cons a t ih =>
    simp only [distinct]
    by_cases h : a ∈ distinct t
    · rw [if_pos h]
      have hat : a ∈ t := (mem_distinct a t).mp h
      have htne : t ≠ [] := by rintro rfl; exact absurd hat (List.not_mem_nil a)
      rw [ih]
      constructor
      · rintro ⟨-, b, hb⟩
        refine ⟨by simp, b, ?_⟩
        intro x hx
        rcases List.mem_cons.mp hx with rfl | hx2
        · exact hb x hat
        · exact hb x hx2
      · rintro ⟨-, b, hb⟩
        exact ⟨htne, b, fun x hx => hb x (List.mem_cons_of_mem a hx)⟩
    · rw [if_neg h]
      simp only [List.length_cons]
      constructor
      · intro h1
        have h0 : (distinct t).length = 0 := by omega
        have ht : t = [] := (distinct_eq_nil t).mp (List.length_eq_zero.mp h0)
        subst ht
        refine ⟨by simp, a, ?_⟩
        intro x hx
        simpa using hx
      · rintro ⟨-, b, hb⟩
        have ht : t = [] := by
          by_contra hne
          obtain ⟨y, hy⟩ := List.exists_mem_of_ne_nil t hne
          have hyb : y = b := hb y (List.mem_cons_of_mem a hy)
          have hab : a = b := hb a (List.mem_cons_self a t)
          have hain : a ∈ t := by rw [hab, ← hyb]; exact hy
          exact h ((mem_distinct a t).mpr hain)
        subst ht
        simp [distinct]

/-- When every document has a payer record, reading a payer attribute
over the list succeeds and is the pointwise projection. -/
theorem mapE_payerGet_ok (g : List Val → Val) :
    ∀ docs : List DocRec, (∀ d ∈ docs, d.payer.isSome = true) →
      mapE (payerGet g) docs
        = Except.ok (docs.map (fun d => g (d.payer.getD []))) := by
  intro docs
  induction docs with
  | nil => intro _; rfl
  | cons a t ih =>
    intro hp
    have ha : a.payer.isSome = true := hp a (List.mem_cons_self a t)
    obtain ⟨p, hpa⟩ := Option.isSome_iff_exists.mp ha
    have ht := ih (fun d hd => hp d (List.mem_cons_of_mem a hd))
    simp [mapE, payerGet, hpa, ht]

/-- A successfully decoded document has every subsection constructed. -/
theorem docOne_subsections {r : Str} {d : DocRec} (h : docOne r = Except.ok d) :
    d.receipt.isSome = true ∧ d.payer.isSome = true ∧ d.receiver.isSome = true ∧
      d.payment.isSome = true ∧ d.tax.isSome = true ∧ d.special.isSome = true := by
  unfold docOne at h
  obtain ⟨f1, -, h⟩ := except_bind_ok h
  obtain ⟨f2, -, h⟩ := except_bind_ok h
  obtain ⟨f3, -, h⟩ := except_bind_ok h
  obtain ⟨f4, -, h⟩ := except_bind_ok h
  obtain ⟨f5, -, h⟩ := except_bind_ok h
  obtain ⟨f6, -, h⟩ := except_bind_ok h
  obtain ⟨f7, -, h⟩ := except_bind_ok h
  cases h
  exact ⟨rfl, rfl, rfl, rfl, rfl, rfl⟩

/-- Claim C1: the spec asserts that decodeAmount normalizes
"1 234,56", the apostrophe variant and "1234.56" to the decimal 1234.56
and "1.234,56" likewise. The code decodes the plain and apostrophe forms
correctly, but `str_to_amount` counts periods in the ORIGINAL string
while removing them from the comma-converted string: "1 234,56" (zero
original periods, so a CPython replace count of -1) loses its decimal
mark and decodes to 123456, and "1.234,56" keeps both periods and makes
`Decimal` raise InvalidOperation. This theorem evaluates the embedded
decoder at all four specification inputs and exhibits the divergence. -/
theorem c1_amount_decode_bug :
    Cast.str_to_amount "1234.56".data = Except.ok ⟨false, 123456, 2⟩ ∧
    Cast.str_to_amount amountApoInput = Except.ok ⟨false, 123456, 2⟩ ∧
    Cast.str_to_amount "1 234,56".data = Except.ok ⟨false, 123456, 0⟩ ∧
    Cast.str_to_amount "1.234,56".data = Except.error Err.invalidOperation ∧
    Dec.toRat ⟨false, 123456, 2⟩ = (123456 : ℚ) / 100 ∧
    Dec.toRat ⟨false, 123456, 0⟩ = (123456 : ℚ) ∧
    (123456 : ℚ) ≠ (123456 : ℚ) / 100 :=
  ⟨rfl, rfl, rfl, rfl,
   by norm_num [Dec.toRat], by norm_num [Dec.toRat], by norm_num⟩

set_option maxRecDepth 100000 in
set_option maxHeartbeats 1000000 in
/-- Claim C2: the spec asserts decode–encode(validate=false)–decode is
the identity on decoded records. On the concrete file `c2T` the first
decode succeeds, but re-encoding renders the absent balance amounts as
`НачальныйОстаток=None` (since `amount_to_str` is `unicode(obj)` and
`unicode(None)` is `None`), and the second decode then fails with the
`Decimal` InvalidOperation error instead of reproducing the records. -/
theorem c2_idempotence_bug :
    (statement_from_text c2T).isOk = true ∧
    decode_encode_decode c2T = Except.error Err.invalidOperation :=
  ⟨rfl, rfl⟩

/-- Claim C3: for every field of non-array type (whatever its direction
flags), a region with two or more lines carrying `key=` makes
`get_value_from_text` raise the duplicate-field error naming the key. -/
theorem c3_duplicate_nonarray_error (key d : Str) (req : Req) (ty : Ty)
    (region : Str) (hty : ty ≠ Ty.array)
    (h2 : 2 ≤ ((linesOf region).filter (fun l => isKeyLine key l)).length) :
    get_value_from_text ⟨key, d, req, ty⟩ region
      = Except.error (Err.structural key) := by
  have hlen := findallKV_length key region
  have hgt : 1 < (findallKV key region).length := by omega
  unfold get_value_from_text
  split
  · rfl
  · next hcond => exact absurd ⟨hgt, hty⟩ hcond

/-- Witness for C3 at a concrete duplicated text field. -/
theorem c3_duplicate_nonarray_error_witness :
    2 ≤ ((linesOf "Номер=1\nНомер=2".data).filter
        (fun l => isKeyLine "Номер".data l)).length ∧
    get_value_from_text ⟨"Номер".data, [], Req.both, Ty.text⟩ "Номер=1\nНомер=2".data
      = Except.error (Err.structural "Номер".data) :=
  ⟨by decide, c3_duplicate_nonarray_error _ _ _ _ _ (by decide) (by decide)⟩

/-- Claim C4 counterexample: the claim says a PresenceFlag field decodes
to a non-null sentinel from the mere presence of its key, with no `=`
required. But `get_value_from_text` always matches `^KEY=(.*?)$`, so a
region consisting exactly of the bare key line decodes the balance
`tag_begin` flag to null. -/
theorem c4_flag_decode_counterexample :
    get_value_from_text balance_tag_begin "СекцияРасчСчет".data
      = Except.ok Val.none := rfl

/-- Claim C4 (amended): encoding a set flag does render only the bare
key, but decoding a flag yields a non-null value only from a line
`KEY=v` whose payload is non-blank: the bare key line and `KEY=` both
decode to null, while `KEY=Остатки` decodes to the payload text — so
decode depends on the `=` and on the trailing text. -/
theorem c4_flag_amended (key d : Str) (req : Req) (s : Str)
    (hs : strip s ≠ []) :
    get_line ⟨key, d, req, Ty.flag⟩ (Val.text s) = key ∧
    get_value_from_text balance_tag_begin "СекцияРасчСчет".data = Except.ok Val.none ∧
    get_value_from_text balance_tag_begin "СекцияРасчСчет=".data = Except.ok Val.none ∧
    get_value_from_text balance_tag_begin "СекцияРасчСчет=Остатки".data
      = Except.ok (Val.text "Остатки".data) := by
  refine ⟨?_, rfl, rfl, rfl⟩
  have hs0 : s ≠ [] := by
    intro h0
    apply hs
    rw [h0]
    rfl
  obtain ⟨a, t, rfl⟩ : ∃ a t, s = a :: t := by
    cases s with
    | nil => exact absurd rfl hs0
    | cons a t => exact ⟨a, t, rfl⟩
  unfold get_line
  rw [if_neg]
  · rfl
  · rintro ⟨-, hc⟩
    exact hs hc

/-- Witness for C4 at a concrete flag render. -/
theorem c4_flag_amended_witness :
    strip "Хозрасчетный".data ≠ [] ∧
    get_line ⟨"СекцияРасчСчет".data, [], Req.none, Ty.flag⟩
      (Val.text "Хозрасчетный".data) = "СекцияРасчСчет".data :=
  ⟨by decide, (c4_flag_amended _ _ _ _ (by decide)).1⟩

/-- `Except.ok` binds by application. -/
theorem except_ok_bind {α β : Type} (a : α) (f : α → Except Err β) :
    (Except.ok a >>= f) = f a := rfl

/-- Claim C5 counterexample: the claim says encode-with-validation
raises whenever ANY field whose direction includes TO_TARGET is
null/empty. The header `1CClientBankExchange` field is TO-required
(Required.BOTH) and a flag; with it null and every other TO_BANK field
filled, `to_text(validate=True)` succeeds, because `validate_attr`
exempts flag fields. -/
theorem c5_validate_flag_counterexample :
    hasToBank (headerSchema.getD 0 (fld "" "" Req.none Ty.text)).required = true ∧
    (headerSchema.getD 0 (fld "" "" Req.none Ty.text)).ty = Ty.flag ∧
    c5HeaderVals.getD 0 (Val.text ['x']) = Val.none ∧
    (section_to_text headerSchema true c5HeaderVals).isOk = true :=
  ⟨rfl, rfl, rfl, rfl⟩

/-- Claim C5 (amended): encoding with validation raises a ValueError
naming the first empty non-flag TO_BANK field; in particular a Payer
record with any non-empty account and an empty name fails naming
`Плательщик` (flag fields are exempt from the check, per the
counterexample). -/
theorem c5_validate_amended (v0 v1 : Val) (vs : List Val)
    (h0 : Cast.text_to_str v0 ≠ []) :
    section_to_text payerSchema true (v0 :: v1 :: Val.none :: vs)
      = Except.error (Err.validation "Плательщик".data) := by
  have e0 : validate_attr
      (fld "ПлательщикСчет" "Расчетный счет плательщика" Req.both Ty.text) v0
      = Except.ok () := by
    unfold validate_attr
    rw [if_neg]
    rintro ⟨-, -, hc⟩
    exact h0 hc
  have e1 : validate_attr
      (fld "ДатаСписано" "Дата списания средств" Req.fromBank Ty.date) v1
      = Except.ok () := by
    unfold validate_attr
    rw [if_neg]
    rintro ⟨hr, -⟩
    revert hr
    decide
  have e2 : validate_attr (fld "Плательщик" "Плательщик" Req.toBank Ty.text)
      Val.none = Except.error (Err.validation "Плательщик".data) := rfl
  unfold section_to_text
  simp only [payerSchema, List.zip_cons_cons]
  rw [sectionLoop_ok_step _ _ _ e0, sectionLoop_ok_step _ _ _ e1,
    sectionLoop_err_step _ _ _ e2]
  rfl

/-- Witness for C5 at a concrete payer record. -/
theorem c5_validate_amended_witness :
    section_to_text payerSchema true
      (Val.text "40702810".data :: Val.none :: Val.none :: List.replicate 10 Val.none)
      = Except.error (Err.validation "Плательщик".data) :=
  c5_validate_amended _ _ _ (by decide)

/-- Claim C6 counterexample: for the empty document list all payer bank
identifiers are (vacuously) identical, so the claim says the
constructor succeeds; but `len(set([])) == 0`, so the code raises the
single-bank ValueError. -/
theorem c6_empty_list_counterexample :
    statement_from_documents ⟨2020, 1, 1⟩ ⟨12, 0, 0⟩ "Acme".data []
      = Except.error Err.multiBank := rfl

/-- Claim C6 (amended): for documents that each carry a payer record,
the outbound constructor succeeds exactly when the list is nonempty and
every payer bank identifier coincides; otherwise (including the empty
list) it raises the single-bank ValueError. -/
theorem c6_single_bank_amended (today : DateV) (now : TimeV) (sender : Str)
    (docs : List DocRec) (hp : ∀ d ∈ docs, d.payer.isSome = true) :
    (statement_from_documents today now sender docs).isOk = true
      ↔ (docs ≠ [] ∧ ∃ b, ∀ d ∈ docs, bicD d = b) := by
  have h1 := mapE_payerGet_ok payer_bank_bic docs hp
  have h2 := mapE_payerGet_ok payer_account_number docs hp
  unfold statement_from_documents
  rw [h1, except_ok_bind]
  by_cases hl :
      (distinct (docs.map (fun d => payer_bank_bic (d.payer.getD [])))).length = 1
  · rw [if_pos hl]
    rw [h2, except_ok_bind]
    obtain ⟨hne, b, hb⟩ := (distinct_length_one _).mp hl
    refine iff_of_true rfl ⟨?_, b, ?_⟩
    · intro h0
      apply hne
      rw [h0]
      rfl
    · intro d2 hd2
      exact hb _ (List.mem_map_of_mem _ hd2)
  · rw [if_neg hl]
    refine iff_of_false ?_ ?_
    · intro hh
      exact Bool.noConfusion hh
    · rintro ⟨hne, b, hb⟩
      apply hl
      apply (distinct_length_one _).mpr
      refine ⟨?_, b, ?_⟩
      · intro h0
        exact hne (List.map_eq_nil_iff.mp h0)
      · intro x hx
        obtain ⟨d2, hd2, rfl⟩ := List.mem_map.mp hx
        exact hb d2 hd2

/-- Witness for C6 at a concrete one-document list. -/
theorem c6_single_bank_amended_witness :
    (statement_from_documents ⟨2020, 1, 1⟩ ⟨12, 0, 0⟩ "Acme".data [docW]).isOk
      = true :=
  (c6_single_bank_amended ⟨2020, 1, 1⟩ ⟨12, 0, 0⟩ "Acme".data [docW]
      (by decide)).mpr ⟨by decide, Val.text "044525225".data, by decide⟩

/-- Claim C7 counterexample: `c7T` contains two document-begin markers
but only one end marker, so its second begin marker is unterminated; the
claim says section extraction must raise a StructuralError, yet the
regex-based extraction silently yields just the one terminated span and
the whole document decode succeeds. -/
theorem c7_unterminated_counterexample :
    countSub "СекцияДокумент".data c7T.length c7T = 2 ∧
    (document_regions c7T).length = 1 ∧
    (document_from_text c7T).isOk = true :=
  ⟨rfl, rfl, rfl⟩

/-- Claim C7 (amended): an unterminated document-begin marker is
silently skipped by section extraction (only terminated spans are
returned); when no terminated span exists at all, the extraction yields
nothing and the decode fails with the TypeError of running the field
regexes over `None` — not with a StructuralError. -/
theorem c7_unterminated_amended :
    document_regions c7T = ["СекцияДокумент=01\n".data] ∧
    findSub "СекцияДокумент".data c7T2 ≠ Option.none ∧
    findSub "КонецДокумента".data c7T2 = Option.none ∧
    document_from_text c7T2 = Except.error Err.typeError := by
  refine ⟨rfl, ?_, rfl, rfl⟩
  decide

/-- Claim C8: the spec asserts that a file without the balance marker
pair decodes with the balance simply absent. In the code
`Balance.extract_section_text` returns `None` and `Section.from_text`
then passes `None` to `re.findall`, which raises TypeError: the
whole-file decode of `c8T` (header and document present, balance markers
absent) fails instead of succeeding. -/
theorem c8_missing_balance_bug :
    findSub "СекцияРасчСчет".data c8T = Option.none ∧
    statement_from_text c8T = Except.error Err.typeError :=
  ⟨rfl, rfl⟩

/-- Claim C9 counterexample: the claim says one occurrence of an
array-typed key yields a one-element sequence; the code returns the bare
cast element instead (`found[0]`), not a list. -/
theorem c9_single_array_counterexample :
    get_value_from_text (fld "РасчСчет" "Расчетный счет организации" Req.both Ty.array)
      "РасчСчет=40702".data = Except.ok (Val.text "40702".data) ∧
    Val.text "40702".data ≠ Val.arr [Option.some "40702".data] :=
  ⟨rfl, by decide⟩

/-- Claim C9 (amended): for an array-typed field, zero key lines decode
to null (not an error), two or more decode element-wise into a sequence,
but exactly one occurrence yields the bare decoded element, not a
one-element sequence. -/
theorem c9_array_amended (key d : Str) (req : Req) (region : Str) :
    (findallKV key region = [] →
      get_value_from_text ⟨key, d, req, Ty.array⟩ region = Except.ok Val.none) ∧
    (∀ x, findallKV key region = [x] →
      get_value_from_text ⟨key, d, req, Ty.array⟩ region
        = Except.ok (optText (Cast.str_to_text x))) ∧
    (2 ≤ (findallKV key region).length →
      get_value_from_text ⟨key, d, req, Ty.array⟩ region
        = Except.ok (Val.arr ((findallKV key region).map Cast.str_to_text))) := by
  refine ⟨?_, ?_, ?_⟩
  · intro h
    simp [get_value_from_text, h]
  · intro x h
    simp [get_value_from_text, h, castFromText]
  · intro h2
    obtain ⟨x, rest, hf⟩ : ∃ x rest, findallKV key region = x :: rest := by
      cases hx : findallKV key region with
      | nil => rw [hx] at h2; simp at h2
      | cons a l => exact ⟨a, l, rfl⟩
    have hlt : 1 < (x :: rest).length := by
      rw [hf] at h2
      simpa using h2
    simp [get_value_from_text, hf, hlt]
    intro h0
    subst h0
    simp at hlt

/-- Witness for C9 at a two-occurrence region. -/
theorem c9_array_amended_witness :
    2 ≤ (findallKV "РасчСчет".data "РасчСчет=a\nРасчСчет=b".data).length ∧
    get_value_from_text ⟨"РасчСчет".data, [], Req.both, Ty.array⟩
        "РасчСчет=a\nРасчСчет=b".data
      = Except.ok (Val.arr ((findallKV "РасчСчет".data
          "РасчСчет=a\nРасчСчет=b".data).map Cast.str_to_text)) :=
  ⟨by decide, (c9_array_amended _ _ _ _).2.2 (by decide)⟩

/-- Claim C10: every document region that decodes successfully yields a
record whose six subsection attributes (receipt, payer, receiver,
payment, tax, special) are all constructed record objects, never
absent — `Document.from_text` assigns all six unconditionally. -/
theorem c10_subsections_always_present (t : Str) (docs : List DocRec)
    (h : document_from_text t = Except.ok docs) :
    ∀ d ∈ docs, d.receipt.isSome = true ∧ d.payer.isSome = true ∧
      d.receiver.isSome = true ∧ d.payment.isSome = true ∧
      d.tax.isSome = true ∧ d.special.isSome = true := by
  intro dd hd
  unfold document_from_text at h
  cases hr : document_regions t with
  | nil => rw [hr] at h; exact Except.noConfusion h
  | cons r rs =>
    rw [hr] at h
    obtain ⟨x, -, hx⟩ := mapE_mem_ok h dd hd
    exact docOne_subsections hx

/-- Witness for C10 at a concrete one-document file. -/
theorem c10_subsections_always_present_witness :
    ∃ docs, document_from_text c10T = Except.ok docs ∧
      ∀ d ∈ docs, d.receipt.isSome = true ∧ d.payer.isSome = true ∧
        d.receiver.isSome = true ∧ d.payment.isSome = true ∧
        d.tax.isSome = true ∧ d.special.isSome = true :=
  ⟨_, rfl, c10_subsections_always_present c10T _ rfl⟩

end CBE
